import Mathlib

/-!
Verification development for the GeoFix geospatial error-correction core.

Shallow embedding of the Python sources:
  geofix/core/models.py        — data model (enums, errors, strategies, results)
  geofix/decision/confidence.py — confidence scoring
  geofix/decision/rules.py      — Tier-1 rule functions and RuleSet
  geofix/decision/llm_reasoner.py — Tier-2 response parsing
  geofix/decision/engine.py     — three-tier DecisionEngine.decide
  geofix/fixes/base.py          — FixOperation.apply lifecycle
  geofix/fixes/overlap.py       — DeleteFix
  geofix/fixes/geometry.py      — MakeValidFix
  geofix/validation/validator.py — Validator.validate_fix
  geofix/audit/logger.py        — AuditLogger.log_fix / get_session_summary
  geofix/audit/database.py      — AuditDatabase.query

Modelling conventions: Python floats are embedded as ℚ wherever the code
only performs field arithmetic and comparisons, and as ℝ for confidence
values (the geometric-mean combination takes a real square root).  A
shapely geometry is abstracted to the attributes the embedded code reads
(validity flag, emptiness flag, area).  The float value inf, used by
dict getters as a default, is embedded by treating an absent key as
failing every upper-bound comparison.  Interpolated numbers inside
human-readable reasoning strings are elided; the surrounding text is kept.
Exceptions are embedded as an explicit outcome constructor.
-/

/-- Abstraction of a shapely geometry: exactly the attributes read by the
embedded code paths (is_valid, is_empty, area). -/
structure Geom where
  is_valid : Bool
  is_empty : Bool
  area : ℚ
deriving DecidableEq, Repr

/-- FixTier from geofix/core/models.py (three decision tiers). -/
inductive FixTier where
  | RULE_BASED
  | LLM_REASONING
  | HUMAN_REVIEW
deriving DecidableEq, Repr

/-- The .value string of each FixTier member, as written to audit rows. -/
def FixTier.value : FixTier → String
  | .RULE_BASED => "rule_based"
  | .LLM_REASONING => "llm_reasoning"
  | .HUMAN_REVIEW => "human_review"

/-- ErrorSeverity from geofix/core/models.py. -/
inductive ErrorSeverity where
  | CRITICAL
  | HIGH
  | MEDIUM
  | LOW
deriving DecidableEq, Repr

/-- FixAction from geofix/core/models.py (audit outcome status). -/
inductive FixAction where
  | APPLIED
  | ROLLED_BACK
  | SKIPPED
  | PENDING_REVIEW
deriving DecidableEq, Repr

/-- The .value string of each FixAction member. -/
def FixAction.value : FixAction → String
  | .APPLIED => "applied"
  | .ROLLED_BACK => "rolled_back"
  | .SKIPPED => "skipped"
  | .PENDING_REVIEW => "pending_review"

/-- FeatureMetadata from geofix/core/models.py, with its field defaults. -/
structure FeatureMetadata where
  feature_id : String
  source : String := "unknown"
  source_date : Option String := none
  accuracy_m : ℚ := 10
  confidence : ℚ := 1/2
deriving DecidableEq, Repr

/-- The DetectedError.properties dict: one optional field per key read by
the decision code (plus overlap_class, the key named in the specification;
no code path reads it).  An absent field embeds an absent dict key. -/
structure ErrorProperties where
  overlap_ratio : Option ℚ := none
  inter_area_m2 : Option ℚ := none
  area_m2 : Option ℚ := none
  compactness : Option ℚ := none
  overlap_type : Option String := none
  error_class : Option String := none
  overlap_class : Option String := none
deriving DecidableEq, Repr

/-- DetectedError from geofix/core/models.py. -/
structure DetectedError where
  error_id : String
  error_type : String
  severity : ErrorSeverity
  geometry : Geom
  affected_features : List String := []
  properties : ErrorProperties := {}
  ovc_source : String := ""
deriving DecidableEq, Repr

/-- The FixStrategy.parameters dict: one optional field per key written or
read by the embedded code paths. -/
structure FixParams where
  delete_feature : Option String := none
  keep_feature : Option String := none
  snap_feature : Option String := none
  reference_feature : Option String := none
  min_distance_m : Option ℚ := none
  tolerance : Option ℚ := none
  preserve_topology : Option Bool := none
  overlap_geometry : Option Geom := none
  other_geometry : Option Geom := none
  reference_geometry : Option Geom := none
  boundary_geometry : Option Geom := none
  road_geometry : Option Geom := none
deriving DecidableEq, Repr

/-- FixStrategy from geofix/core/models.py.  fix_type is an open string in
the source (design note in the spec notwithstanding); confidence is a real
number because rule 60 combines scores by a geometric mean. -/
structure FixStrategy where
  error : DetectedError
  fix_type : String
  tier : FixTier
  confidence : ℝ
  parameters : FixParams := {}
  reasoning : String := ""

/-- FixResult from geofix/core/models.py (timestamp elided: never read by
the embedded paths except for formatting). -/
structure FixResult where
  strategy : FixStrategy
  success : Bool
  original_geometry : Geom
  fixed_geometry : Option Geom
  validation_passed : Bool
  new_errors_introduced : Nat := 0

/-- ValidationResult from geofix/validation/validator.py. -/
structure ValidationResult where
  passed : Bool
  checks_run : List String := []
  failures : List String := []
deriving DecidableEq, Repr

/-- Validator construction defaults (geofix/validation/validator.py,
Validator.__init__): min_area_m2 = 0.5, max_area_ratio_change = 5.0. -/
def Validator.default_min_area_m2 : ℚ := 1/2

/-- Validator construction default for max_area_ratio_change. -/
def Validator.default_max_area_ratio_change : ℚ := 5

/-- Validator.validate_fix from geofix/validation/validator.py.
Checks, in source order: null check (early return; allow_deletion lets a
None or empty geometry pass), validity check, area-nonzero check,
area-ratio check, minimum-area check.  Each subsequent check appends its
name to checks_run and, on failure, appends a message and clears passed.
The hasattr(fixed, "area") guard is always true for shapely geometries and
is embedded as such. -/
def Validator.validate_fix (min_area_m2 max_area_ratio_change : ℚ)
    (original : Geom) (fixed : Option Geom) (allow_deletion : Bool) :
    ValidationResult :=
  match fixed with
  | none =>
      if allow_deletion then
        { passed := true, checks_run := ["null_check"], failures := [] }
      else
        { passed := false, checks_run := ["null_check"],
          failures := ["Fix produced null/empty geometry"] }
  | some f =>
      if f.is_empty then
        if allow_deletion then
          { passed := true, checks_run := ["null_check"], failures := [] }
        else
          { passed := false, checks_run := ["null_check"],
            failures := ["Fix produced null/empty geometry"] }
      else
        let fail2 : Bool := !f.is_valid
        let fail3 : Bool := decide (f.area ≤ 0) && decide (0 < original.area)
        let ratio_applies : Bool :=
          decide (0 < original.area) && decide (0 < f.area)
        let fail4a : Bool :=
          ratio_applies && decide (max_area_ratio_change < f.area / original.area)
        let fail4b : Bool :=
          ratio_applies && decide (f.area / original.area < 1 / max_area_ratio_change)
        let fail5 : Bool := decide (0 < f.area) && decide (f.area < min_area_m2)
        { passed := !(fail2 || fail3 || fail4a || fail4b || fail5),
          checks_run := ["null_check", "validity_check", "area_check",
                         "area_ratio_check", "min_area_check"],
          failures :=
            (if fail2 then ["Fixed geometry is invalid"] else []) ++
            (if fail3 then ["Fixed geometry has zero area"] else []) ++
            (if fail4a then ["Area increased beyond max ratio"] else []) ++
            (if fail4b then ["Area decreased below min ratio"] else []) ++
            (if fail5 then ["Fixed geometry area below minimum"] else []) }

/-- accuracy_difference from geofix/decision/confidence.py. -/
def accuracy_difference (meta_a meta_b : FeatureMetadata) : ℚ :=
  |meta_a.accuracy_m - meta_b.accuracy_m|

/-- confidence_from_accuracy_gap from geofix/decision/confidence.py. -/
noncomputable def confidence_from_accuracy_gap (gap : ℚ) : ℝ :=
  if 10 ≤ gap then 0.95
  else if 5 ≤ gap then 0.85
  else if 2 ≤ gap then 0.75
  else if 1 ≤ gap then 0.65
  else 0.55

/-- confidence_from_overlap_ratio from geofix/decision/confidence.py. -/
noncomputable def confidence_from_overlap_ratio (ratio : ℚ) : ℝ :=
  if 0.98 ≤ ratio then 0.95
  else if 0.80 ≤ ratio then 0.85
  else if 0.60 ≤ ratio then 0.75
  else if 0.40 ≤ ratio then 0.65
  else 0.55

/-- combined_confidence from geofix/decision/confidence.py: geometric mean
of the scores, each floored at 0.01; 0 on the empty list.  The float
expression product ** (1.0 / len(scores)) is embedded as a real power. -/
noncomputable def combined_confidence (scores : List ℝ) : ℝ :=
  if scores.isEmpty then 0
  else (scores.foldl (fun p s => p * max s 0.01) 1) ^ ((1 : ℝ) / (scores.length : ℝ))

/-- DecisionThresholds from geofix/core/config.py. -/
structure DecisionThresholds where
  auto_fix_min : ℝ
  llm_fix_min : ℝ

/-- The DecisionThresholds defaults: auto_fix_min 0.80, llm_fix_min 0.60. -/
noncomputable def DecisionThresholds.default : DecisionThresholds :=
  { auto_fix_min := 0.80, llm_fix_min := 0.60 }

/-- The `meta.get(fid, FeatureMetadata(feature_id=fid))` helper `_get_meta`
from geofix/decision/rules.py; metadata dicts are embedded as association
lists. -/
def get_meta (meta : List (String × FeatureMetadata)) (fid : String) :
    FeatureMetadata :=
  match meta.find? (fun p => p.1 = fid) with
  | some p => p.2
  | none => { feature_id := fid }

/-- The comparison `properties.get(key, float("inf")) < bound`: an absent
key defaults to inf and therefore fails the bound. -/
def ltWithInfDefault (o : Option ℚ) (bound : ℚ) : Bool :=
  match o with
  | none => false
  | some a => decide (a < bound)

/-- rule_duplicate_same_source from geofix/decision/rules.py (priority 20). -/
noncomputable def rule_duplicate_same_source (error : DetectedError)
    (meta : List (String × FeatureMetadata)) : Option FixStrategy :=
  if error.error_type ≠ "building_overlap" ∧ error.error_type ≠ "duplicate_geometry" then none
  else
  let ratio := error.properties.overlap_ratio.getD 0
  if ratio < 0.98 then none
  else match error.affected_features with
  | a :: b :: _ =>
    let ma := get_meta meta a
    let mb := get_meta meta b
    if ma.source ≠ mb.source then none
    else some
      { error := error, fix_type := "delete", tier := .RULE_BASED,
        confidence := 0.95,
        parameters := { delete_feature := some (if mb.confidence ≤ ma.confidence then b else a) },
        reasoning := "Duplicate from same source" }
  | _ => none

/-- rule_duplicate_diff_source from geofix/decision/rules.py (priority 30). -/
noncomputable def rule_duplicate_diff_source (error : DetectedError)
    (meta : List (String × FeatureMetadata)) : Option FixStrategy :=
  if error.error_type ≠ "building_overlap" ∧ error.error_type ≠ "duplicate_geometry" then none
  else
  let ratio := error.properties.overlap_ratio.getD 0
  if ratio < 0.98 then none
  else match error.affected_features with
  | a :: b :: _ =>
    let ma := get_meta meta a
    let mb := get_meta meta b
    if ma.source = mb.source then none
    else
      let keep := if ma.accuracy_m ≤ mb.accuracy_m then a else b
      let del := if keep = a then b else a
      some
        { error := error, fix_type := "delete", tier := .RULE_BASED,
          confidence := 0.85,
          parameters := { delete_feature := some del, keep_feature := some keep },
          reasoning := "Duplicate from different sources. Keeping higher accuracy." }
  | _ => none

/-- rule_partial_overlap_accuracy from geofix/decision/rules.py
(priority 60).  Fires on building_overlap with 0.30 ≤ ratio < 0.98 and an
accuracy gap above 5 m; confidence is the geometric-mean combination of
the two confidence curves. -/
noncomputable def rule_partial_overlap_accuracy (error : DetectedError)
    (meta : List (String × FeatureMetadata)) : Option FixStrategy :=
  if error.error_type ≠ "building_overlap" then none
  else
  let ratio := error.properties.overlap_ratio.getD 0
  if 0.98 ≤ ratio ∨ ratio < 0.30 then none
  else match error.affected_features with
  | a :: b :: _ =>
    let ma := get_meta meta a
    let mb := get_meta meta b
    let gap := accuracy_difference ma mb
    if gap ≤ 5 then none
    else
      let conf := combined_confidence
        [confidence_from_overlap_ratio ratio, confidence_from_accuracy_gap gap]
      let snap_target := if mb.accuracy_m < ma.accuracy_m then a else b
      let reference := if snap_target = a then b else a
      some
        { error := error, fix_type := "snap", tier := .RULE_BASED,
          confidence := conf,
          parameters := { snap_feature := some snap_target,
                          reference_feature := some reference },
          reasoning := "Partial overlap with accuracy gap. Snap less accurate feature." }
  | _ => none

/-- rule_sliver_overlap from geofix/decision/rules.py (priority 50): reads
properties key overlap_type (not overlap_class) and the inter_area_m2 key
with an inf default. -/
noncomputable def rule_sliver_overlap (error : DetectedError)
    (_meta : List (String × FeatureMetadata)) : Option FixStrategy :=
  if error.error_type ≠ "building_overlap" then none
  else
  let otype := error.properties.overlap_type.getD ""
  if otype ≠ "sliver" then none
  else if !ltWithInfDefault error.properties.inter_area_m2 1 then none
  else some
    { error := error, fix_type := "trim", tier := .RULE_BASED,
      confidence := 0.90,
      reasoning := "Sliver overlap — auto-trimming." }

/-- rule_small_road_conflict from geofix/decision/rules.py (priority 70). -/
noncomputable def rule_small_road_conflict (error : DetectedError)
    (_meta : List (String × FeatureMetadata)) : Option FixStrategy :=
  if error.error_type ≠ "building_on_road" then none
  else if !ltWithInfDefault error.properties.inter_area_m2 2 then none
  else some
    { error := error, fix_type := "nudge", tier := .RULE_BASED,
      confidence := 0.85,
      parameters := { min_distance_m := some 3 },
      reasoning := "Small road conflict — nudging building off road." }

/-- rule_invalid_geometry from geofix/decision/rules.py (priority 40). -/
noncomputable def rule_invalid_geometry (error : DetectedError)
    (_meta : List (String × FeatureMetadata)) : Option FixStrategy :=
  if error.error_type ≠ "invalid_geometry" then none
  else some
    { error := error, fix_type := "make_valid", tier := .RULE_BASED,
      confidence := 0.95,
      reasoning := "Self-intersecting / invalid geometry — applying make_valid()." }

/-- rule_tiny_building from geofix/decision/rules.py (priority 80). -/
noncomputable def rule_tiny_building (error : DetectedError)
    (_meta : List (String × FeatureMetadata)) : Option FixStrategy :=
  if error.error_type ≠ "unreasonable_area" then none
  else if !ltWithInfDefault error.properties.area_m2 1 then none
  else some
    { error := error, fix_type := "delete", tier := .RULE_BASED,
      confidence := 0.70,
      reasoning := "Unreasonably small building — flagged for deletion." }

/-- rule_low_compactness from geofix/decision/rules.py (priority 90). -/
noncomputable def rule_low_compactness (error : DetectedError)
    (_meta : List (String × FeatureMetadata)) : Option FixStrategy :=
  if error.error_type ≠ "low_compactness" then none
  else
  let compactness := error.properties.compactness.getD 1
  if 0.05 ≤ compactness then none
  else some
    { error := error, fix_type := "simplify", tier := .RULE_BASED,
      confidence := 0.75,
      parameters := { tolerance := some (1/2), preserve_topology := some true },
      reasoning := "Extremely low compactness — simplifying." }

/-- rule_boundary_clip from geofix/decision/rules.py (priority 100). -/
noncomputable def rule_boundary_clip (error : DetectedError)
    (_meta : List (String × FeatureMetadata)) : Option FixStrategy :=
  if error.error_type ≠ "building_boundary_overlap" then none
  else some
    { error := error, fix_type := "clip", tier := .RULE_BASED,
      confidence := 0.85,
      reasoning := "Building extends beyond boundary — clipping to boundary." }

/-- rule_exact_duplicate from geofix/decision/rules.py (priority 10). -/
noncomputable def rule_exact_duplicate (error : DetectedError)
    (_meta : List (String × FeatureMetadata)) : Option FixStrategy :=
  if error.error_type ≠ "duplicate_geometry" then none
  else match error.affected_features with
  | _ :: b :: _ =>
    some
      { error := error, fix_type := "delete", tier := .RULE_BASED,
        confidence := 0.95,
        parameters := { delete_feature := some b },
        reasoning := "Exact duplicate geometry (WKB match) — deleting duplicate." }
  | _ => none

/-- rule_overlap_by_class from geofix/decision/rules.py (priority 200):
the OVC fallback keyed on the error_class property. -/
noncomputable def rule_overlap_by_class (error : DetectedError)
    (_meta : List (String × FeatureMetadata)) : Option FixStrategy :=
  if error.error_type ≠ "building_overlap" then none
  else
  let error_class := error.properties.error_class.getD ""
  if error_class = "duplicate" then
    some
      { error := error, fix_type := "delete", tier := .RULE_BASED,
        confidence := 0.80,
        parameters := { delete_feature := some (error.affected_features.headD "unknown") },
        reasoning := "Duplicate building (OVC class=duplicate) — flagged for deletion." }
  else if error_class = "sliver" then
    some
      { error := error, fix_type := "trim", tier := .RULE_BASED,
        confidence := 0.85,
        reasoning := "Sliver overlap (OVC class=sliver) — auto-trimming overlap area." }
  else if error_class = "partial" then
    some
      { error := error, fix_type := "snap", tier := .RULE_BASED,
        confidence := 0.80,
        reasoning := "Partial overlap (OVC class=partial) — snapping to reduce overlap." }
  else none

/-- rule_road_conflict_fallback from geofix/decision/rules.py (priority 210). -/
noncomputable def rule_road_conflict_fallback (error : DetectedError)
    (_meta : List (String × FeatureMetadata)) : Option FixStrategy :=
  if error.error_type ≠ "building_on_road" then none
  else some
    { error := error, fix_type := "nudge", tier := .RULE_BASED,
      confidence := 0.75,
      parameters := { min_distance_m := some 3 },
      reasoning := "Building conflicts with road — nudging off road buffer." }

/-- rule_outside_boundary from geofix/decision/rules.py (priority 220). -/
noncomputable def rule_outside_boundary (error : DetectedError)
    (_meta : List (String × FeatureMetadata)) : Option FixStrategy :=
  if error.error_type ≠ "outside_boundary" then none
  else some
    { error := error, fix_type := "flag", tier := .RULE_BASED,
      confidence := 0.80,
      reasoning := "Building is outside the study area boundary — flagged for review." }

/-- rule_boundary_overlap_fallback from geofix/decision/rules.py
(priority 230). -/
noncomputable def rule_boundary_overlap_fallback (error : DetectedError)
    (_meta : List (String × FeatureMetadata)) : Option FixStrategy :=
  if error.error_type ≠ "building_boundary_overlap" then none
  else some
    { error := error, fix_type := "clip", tier := .RULE_BASED,
      confidence := 0.80,
      reasoning := "Building extends beyond boundary — clipping to boundary." }

/-- Outcome of calling a rule function: the function may raise (caught by
RuleSet.evaluate), return None, or return a strategy. -/
inductive RuleOutcome where
  | raises
  | noMatch
  | matched (s : FixStrategy)

/-- A named rule with a priority (geofix/decision/rules.py, class Rule). -/
structure Rule where
  name : String
  priority : Nat
  func : DetectedError → List (String × FeatureMetadata) → RuleOutcome

/-- Lift a total rule function (one that never raises) into a RuleOutcome
producer; all built-in rules are total. -/
def liftRule
    (f : DetectedError → List (String × FeatureMetadata) → Option FixStrategy)
    (e : DetectedError) (m : List (String × FeatureMetadata)) : RuleOutcome :=
  match f e m with
  | none => .noMatch
  | some s => .matched s

/-- RuleSet.evaluate from geofix/decision/rules.py: try each rule in
order; an exception is caught and treated as no match (the loop
continues); the first strategy produced wins; None if no rule fires. -/
def RuleSet.evaluate : List Rule → DetectedError →
    List (String × FeatureMetadata) → Option FixStrategy
  | [], _, _ => none
  | r :: rest, e, m =>
      match r.func e m with
      | .raises => RuleSet.evaluate rest e m
      | .noMatch => RuleSet.evaluate rest e m
      | .matched s => some s

/-- build_default_ruleset from geofix/decision/rules.py.  The adds happen
in ascending-priority order and Python list.sort is stable, so the sorted
rule list equals the literal list below. -/
noncomputable def build_default_ruleset : List Rule :=
  [ { name := "exact_duplicate", priority := 10, func := liftRule rule_exact_duplicate },
    { name := "duplicate_same_source", priority := 20, func := liftRule rule_duplicate_same_source },
    { name := "duplicate_diff_source", priority := 30, func := liftRule rule_duplicate_diff_source },
    { name := "invalid_geometry", priority := 40, func := liftRule rule_invalid_geometry },
    { name := "sliver_overlap", priority := 50, func := liftRule rule_sliver_overlap },
    { name := "partial_overlap_accuracy", priority := 60, func := liftRule rule_partial_overlap_accuracy },
    { name := "small_road_conflict", priority := 70, func := liftRule rule_small_road_conflict },
    { name := "tiny_building", priority := 80, func := liftRule rule_tiny_building },
    { name := "low_compactness", priority := 90, func := liftRule rule_low_compactness },
    { name := "boundary_clip", priority := 100, func := liftRule rule_boundary_clip },
    { name := "overlap_by_class", priority := 200, func := liftRule rule_overlap_by_class },
    { name := "road_conflict_fallback", priority := 210, func := liftRule rule_road_conflict_fallback },
    { name := "outside_boundary", priority := 220, func := liftRule rule_outside_boundary },
    { name := "boundary_overlap_fallback", priority := 230, func := liftRule rule_boundary_overlap_fallback } ]

/-- The JSON object decoded from an LLM response, at the point after
json.loads succeeded in LLMReasoner._parse_response: each field optional
(dict .get with defaults applied by the parser). -/
structure LLMResponseData where
  fix_type : Option String := none
  confidence : Option ℝ := none
  parameters : Option FixParams := none
  reasoning : Option String := none

/-- LLMReasoner._parse_response from geofix/decision/llm_reasoner.py.
A none input embeds the except branch (JSON decode / key / type error →
None).  On success the strategy takes fix_type from the response with
default "human_review", tier LLM_REASONING, confidence default 0.5 —
the fix_type is not checked against any closed set. -/
noncomputable def LLMReasoner.parse_response (data : Option LLMResponseData)
    (error : DetectedError) : Option FixStrategy :=
  match data with
  | none => none
  | some d =>
      some
        { error := error,
          fix_type := d.fix_type.getD "human_review",
          tier := .LLM_REASONING,
          confidence := d.confidence.getD 0.5,
          parameters := d.parameters.getD {},
          reasoning := d.reasoning.getD "LLM recommendation" }

/-- Outcome of LLMReasoner.reason as observed by the engine: it may raise
(LLMError propagates out of reason; the engine catches it), or return an
optional strategy. -/
inductive OracleOutcome where
  | raises
  | ok (r : Option FixStrategy)

/-- The oracle as the engine sees it: reason(error, metadata, context)
where context is the rule-tier attempt. -/
def Oracle : Type :=
  DetectedError → List (String × FeatureMetadata) → Option FixStrategy →
    OracleOutcome

/-- The engine Tier-2 block: skipped when rules_only; an oracle exception
is caught and leaves the LLM strategy as None. -/
noncomputable def DecisionEngine.llm_attempt (oracle : Oracle)
    (error : DetectedError) (meta : List (String × FeatureMetadata))
    (rule_attempt : Option FixStrategy) (rules_only : Bool) :
    Option FixStrategy :=
  if rules_only then none
  else
    match oracle error meta rule_attempt with
    | .raises => none
    | .ok r => r

/-- The engine Tier-3 fallback (engine.py lines 104-121): best is the LLM
attempt if any, else the rule attempt (Python `llm_strategy or strategy`);
the emitted strategy is human_review / HUMAN_REVIEW with the best
attempt's confidence (0 if none) and its reasoning plus a suffix. -/
noncomputable def DecisionEngine.human_review_fallback
    (error : DetectedError) (best : Option FixStrategy) : FixStrategy :=
  match best with
  | some b =>
      { error := error, fix_type := "human_review", tier := .HUMAN_REVIEW,
        confidence := b.confidence,
        reasoning := b.reasoning ++ " — confidence too low for auto-fix." }
  | none =>
      { error := error, fix_type := "human_review", tier := .HUMAN_REVIEW,
        confidence := 0,
        reasoning := "No rule or LLM recommendation available." }

/-- DecisionEngine.decide from geofix/decision/engine.py: Tier 1 rules
(emitted iff confidence ≥ auto_fix_min), Tier 2 oracle unless rules_only
(emitted iff confidence ≥ llm_fix_min; raising is caught), Tier 3 human
review fallback. -/
noncomputable def DecisionEngine.decide (cfg : DecisionThresholds)
    (rules : List Rule) (oracle : Oracle) (error : DetectedError)
    (meta : List (String × FeatureMetadata)) (rules_only : Bool) :
    FixStrategy :=
  match RuleSet.evaluate rules error meta with
  | some st =>
      if cfg.auto_fix_min ≤ st.confidence then st
      else
        match DecisionEngine.llm_attempt oracle error meta (some st) rules_only with
        | some ls =>
            if cfg.llm_fix_min ≤ ls.confidence then ls
            else DecisionEngine.human_review_fallback error (some ls)
        | none => DecisionEngine.human_review_fallback error (some st)
  | none =>
      match DecisionEngine.llm_attempt oracle error meta none rules_only with
      | some ls =>
          if cfg.llm_fix_min ≤ ls.confidence then ls
          else DecisionEngine.human_review_fallback error (some ls)
      | none => DecisionEngine.human_review_fallback error none

/-- The closed set of fix kinds of §4.3 of the specification. -/
def closed_fix_kinds : List String :=
  ["make_valid", "simplify", "delete", "trim", "merge", "snap", "clip",
   "nudge", "flag", "human_review"]

/-- Outcome of a FixOperation.execute call: it may raise (caught by
apply) or return an optional geometry. -/
inductive ExecOutcome where
  | raises
  | returns (g : Option Geom)

/-- A fix operation (geofix/fixes/base.py): a name, an execute function
and a validate predicate; apply composes them. -/
structure FixOperation where
  name : String
  execute : Geom → FixParams → ExecOutcome
  validate : Geom → Option Geom → Bool

/-- The base-class FixOperation.validate: reject None/empty results,
invalid results, and area collapse from above 1 m² to ≤ 0. -/
def FixOperation.base_validate (original : Geom) (fixed : Option Geom) :
    Bool :=
  match fixed with
  | none => false
  | some f =>
      if f.is_empty then false
      else if !f.is_valid then false
      else if 1 < original.area ∧ f.area ≤ 0 then false
      else true

/-- FixOperation.apply from geofix/fixes/base.py: execute → validate →
package a FixResult; an exception from execute yields a failed result
with null post-geometry; on a validation failure the post-geometry is
nulled and success is false; success always equals the verdict. -/
def FixOperation.apply (op : FixOperation) (strategy : FixStrategy) :
    FixResult :=
  let original := strategy.error.geometry
  match op.execute original strategy.parameters with
  | .raises =>
      { strategy := strategy, success := false,
        original_geometry := original, fixed_geometry := none,
        validation_passed := false }
  | .returns fixed =>
      let passed := op.validate original fixed
      { strategy := strategy, success := passed,
        original_geometry := original,
        fixed_geometry := if passed then fixed else none,
        validation_passed := passed }

/-- DeleteFix from geofix/fixes/overlap.py: execute returns None and
validate always accepts (deletion is intentional). -/
def DeleteFix : FixOperation :=
  { name := "delete",
    execute := fun _ _ => .returns none,
    validate := fun _ _ => true }

/-- FlagFix from geofix/fixes/registry.py: identity transform, always
valid. -/
def FlagFix : FixOperation :=
  { name := "flag",
    execute := fun g _ => .returns (some g),
    validate := fun _ _ => true }

/-- MakeValidFix.execute from geofix/fixes/geometry.py, on an optional
geometry as in the source (None in → None out); mv embeds the external
shapely make_valid transform.  Valid input is returned unchanged. -/
def MakeValidFix.execute_opt (mv : Geom → Geom) (geometry : Option Geom) :
    Option Geom :=
  match geometry with
  | none => none
  | some g => if g.is_valid then some g else some (mv g)

/-- MakeValidFix as a FixOperation (validate: base checks plus a validity
requirement on the result). -/
def MakeValidFix (mv : Geom → Geom) : FixOperation :=
  { name := "make_valid",
    execute := fun g _ => .returns (MakeValidFix.execute_opt mv (some g)),
    validate := fun original fixed =>
      FixOperation.base_validate original fixed &&
      (match fixed with
       | some f => f.is_valid
       | none => false) }

/-- One audit_log row (geofix/audit/database.py SCHEMA).  The timestamp
column and WKT serialization are elided: before_wkt/after_wkt hold the
geometry whose WKT is written, or none — shapely geometries are falsy
when empty, so an empty geometry records null. -/
structure AuditRow where
  session_id : String
  feature_id : String
  error_type : String
  error_id : String
  fix_type : String
  tier : String
  confidence : ℝ
  reasoning : String
  before_wkt : Option Geom
  after_wkt : Option Geom
  action : String
  validation_ok : Nat
  new_errors : Nat

/-- AuditLogger.log_fix from geofix/audit/logger.py: the row built from a
FixResult, a feature id and an action for the logger session. -/
def AuditLogger.log_fix_row (session_id : String) (result : FixResult)
    (feature_id : String) (action : FixAction) : AuditRow :=
  { session_id := session_id,
    feature_id := feature_id,
    error_type := result.strategy.error.error_type,
    error_id := result.strategy.error.error_id,
    fix_type := result.strategy.fix_type,
    tier := result.strategy.tier.value,
    confidence := result.strategy.confidence,
    reasoning := result.strategy.reasoning,
    before_wkt :=
      if result.original_geometry.is_empty then none
      else some result.original_geometry,
    after_wkt :=
      match result.fixed_geometry with
      | some g => if g.is_empty then none else some g
      | none => none,
    action := action.value,
    validation_ok := if result.validation_passed then 1 else 0,
    new_errors := result.new_errors_introduced }

/-- AuditDatabase.insert: append one row (AUTOINCREMENT ids are the list
positions, ascending). -/
def AuditDatabase.insert (db : List AuditRow) (row : AuditRow) :
    List AuditRow :=
  db ++ [row]

/-- A query filter argument: Python applies the SQL filter only when the
argument is truthy, so None and the empty string both disable it. -/
def pyStrFilter (f : Option String) (v : String) : Bool :=
  match f with
  | none => true
  | some s => if s = "" then true else v = s

/-- AuditDatabase.query from geofix/audit/database.py: optional filters on
feature_id, session_id, error_type; ORDER BY id DESC (reverse insertion
order) LIMIT limit. -/
def AuditDatabase.query (db : List AuditRow)
    (feature_id session_id error_type : Option String) (limit : Nat) :
    List AuditRow :=
  ((db.filter (fun r =>
      pyStrFilter feature_id r.feature_id &&
      pyStrFilter session_id r.session_id &&
      pyStrFilter error_type r.error_type)).reverse).take limit

/-- The dict returned by AuditLogger.get_session_summary. -/
structure SessionSummary where
  session_id : String
  total_actions : Nat
  applied : Nat
  rolled_back : Nat
  skipped : Nat
  pending_review : Nat
deriving DecidableEq, Repr

/-- AuditLogger.get_session_summary from geofix/audit/logger.py: query the
session's rows with limit 10000 and count them by action string. -/
def AuditLogger.get_session_summary (session_id : String)
    (db : List AuditRow) : SessionSummary :=
  let rows := AuditDatabase.query db none (some session_id) none 10000
  { session_id := session_id,
    total_actions := rows.length,
    applied := rows.countP (fun r => r.action == "applied"),
    rolled_back := rows.countP (fun r => r.action == "rolled_back"),
    skipped := rows.countP (fun r => r.action == "skipped"),
    pending_review := rows.countP (fun r => r.action == "pending_review") }

/-! Concrete fixtures used by the scenario theorems below. -/

/-- A valid, non-empty 100 m² geometry. -/
def baseGeom : Geom := { is_valid := true, is_empty := false, area := 100 }

/-- A road_setback error: no built-in rule handles this error type. -/
def roadSetbackError : DetectedError :=
  { error_id := "rs1", error_type := "road_setback", severity := .MEDIUM,
    geometry := baseGeom }

/-- A building_overlap error whose properties carry the key overlap_class
(the name used by the specification) with value sliver, and a 0.5 m²
intersection area. -/
def sliverClassError : DetectedError :=
  { error_id := "sl1", error_type := "building_overlap", severity := .LOW,
    geometry := baseGeom, affected_features := ["a", "b"],
    properties := { overlap_class := some "sliver",
                    inter_area_m2 := some (1/2) } }

/-- A building_overlap error carrying overlap_type = sliver (the key the
code reads) with a 0.5 m² intersection area. -/
def sliverTypeError : DetectedError :=
  { error_id := "sl2", error_type := "building_overlap", severity := .LOW,
    geometry := baseGeom, affected_features := ["a", "b"],
    properties := { overlap_type := some "sliver",
                    inter_area_m2 := some (1/2) } }

/-- Scenario S2 of the specification: overlap ratio 0.36 between features
A and B. -/
def s2_error : DetectedError :=
  { error_id := "s2", error_type := "building_overlap", severity := .HIGH,
    geometry := baseGeom, affected_features := ["A", "B"],
    properties := { overlap_ratio := some (9/25) } }

/-- Scenario S2 metadata: A has accuracy 2 m, B has accuracy 12 m. -/
def s2_meta : List (String × FeatureMetadata) :=
  [("A", { feature_id := "A", accuracy_m := 2 }),
   ("B", { feature_id := "B", accuracy_m := 12 })]

/-- An unreasonable_area error over a 0.5 m² building (fires the
tiny_building rule at confidence 0.70). -/
def tinyError : DetectedError :=
  { error_id := "tb1", error_type := "unreasonable_area",
    severity := .MEDIUM, geometry := { is_valid := true, is_empty := false, area := 1/2 },
    affected_features := ["t"], properties := { area_m2 := some (1/2) } }

/-- An oracle that answers every consultation with a parsed response whose
fix kind is the out-of-set string teleport at confidence 0.9. -/
noncomputable def teleport_oracle : Oracle := fun e _ _ =>
  .ok (LLMReasoner.parse_response
    (some { fix_type := some "teleport", confidence := some 0.9 }) e)

/-- An oracle that answers with a closed-set fix kind at confidence 0.30
(below llm_fix_min). -/
noncomputable def merge_oracle_030 : Oracle := fun e _ _ =>
  .ok (LLMReasoner.parse_response
    (some { fix_type := some "merge", confidence := some 0.3,
            reasoning := some "LLM suggests merge" }) e)

/-- An oracle that answers with a closed-set fix kind at confidence 0.65
(above llm_fix_min). -/
noncomputable def snap_oracle_065 : Oracle := fun e _ _ =>
  .ok (LLMReasoner.parse_response
    (some { fix_type := some "snap", confidence := some 0.65 }) e)

/-- An oracle that never recommends anything. -/
def silent_oracle : Oracle := fun _ _ _ => .ok none

/-- A fix operation whose execute always raises. -/
def raisingOp : FixOperation :=
  { name := "raising",
    execute := fun _ _ => .raises,
    validate := fun _ _ => false }

/-- A sample rule-tier strategy over the S2 error. -/
noncomputable def sampleStrategy : FixStrategy :=
  { error := s2_error, fix_type := "delete", tier := .RULE_BASED,
    confidence := 0.95, reasoning := "sample" }

/-- A sample successful FixResult over sampleStrategy. -/
noncomputable def sampleResult : FixResult :=
  { strategy := sampleStrategy, success := true,
    original_geometry := baseGeom, fixed_geometry := some baseGeom,
    validation_passed := true }

/-- A sample applied audit row in session s. -/
noncomputable def sampleAppliedRow : AuditRow :=
  AuditLogger.log_fix_row "s" sampleResult "f1" .APPLIED

/-- A sample rolled-back audit row in session s. -/
noncomputable def sampleRolledBackRow : AuditRow :=
  AuditLogger.log_fix_row "s" sampleResult "f2" .ROLLED_BACK

/-- A sample audit row in a different session. -/
noncomputable def otherSessionRow : AuditRow :=
  AuditLogger.log_fix_row "other" sampleResult "f3" .SKIPPED

/-! Theorems. -/

/-- Helper: the failure list assembled from five flag-guarded messages is
empty exactly when no flag is set. -/
theorem flags_failures_empty (a b c d e : Bool) (m1 m2 m3 m4 m5 : String) :
    ((!(a || b || c || d || e)) = true ↔
      (((if a then [m1] else []) ++ (if b then [m2] else []) ++
        (if c then [m3] else []) ++ (if d then [m4] else []) ++
        (if e then [m5] else [])) = ([] : List String))) := by
  cases a <;> cases b <;> cases c <;> cases d <;> cases e <;> simp

/-- Claim C4: validate_fix runs its checks in the order null check,
validity check, area-nonzero check, area-ratio check (against
max_area_ratio_change, default 5.0 in either direction), minimum-area
check (against min_area_m2, default 0.5); it passes iff no check records
a failure; and with allow_deletion a nil or empty fixed geometry passes. -/
theorem validate_fix_contract (min_area_m2 max_ratio : ℚ) (original : Geom)
    (fixed : Option Geom) (allow_deletion : Bool) :
    ((Validator.validate_fix min_area_m2 max_ratio original fixed allow_deletion).checks_run
        = ["null_check"] ∨
      (Validator.validate_fix min_area_m2 max_ratio original fixed allow_deletion).checks_run
        = ["null_check", "validity_check", "area_check", "area_ratio_check",
           "min_area_check"]) ∧
    ((Validator.validate_fix min_area_m2 max_ratio original fixed allow_deletion).passed = true ↔
      (Validator.validate_fix min_area_m2 max_ratio original fixed allow_deletion).failures = []) ∧
    (allow_deletion = true →
      (fixed = none ∨ ∃ f, fixed = some f ∧ f.is_empty = true) →
      (Validator.validate_fix min_area_m2 max_ratio original fixed allow_deletion).passed = true) ∧
    Validator.default_min_area_m2 = 1/2 ∧
    Validator.default_max_area_ratio_change = 5 := by
  rcases fixed with _ | f
  · cases allow_deletion <;>
      simp [Validator.validate_fix, Validator.default_min_area_m2,
        Validator.default_max_area_ratio_change]
  · by_cases hemp : f.is_empty = true
    · cases allow_deletion <;>
        simp [Validator.validate_fix, hemp, Validator.default_min_area_m2,
          Validator.default_max_area_ratio_change]
    · have hemp' : f.is_empty = false := by
        exact Bool.eq_false_iff.mpr (fun h => hemp h)
      refine ⟨Or.inr ?_, ?_, ?_, rfl, rfl⟩
      · simp [Validator.validate_fix, hemp']
      · simp only [Validator.validate_fix, hemp', Bool.false_eq_true,
          if_false]
        exact flags_failures_empty _ _ _ _ _ _ _ _ _ _
      · intro _ hor
        rcases hor with h | ⟨g, hg, hge⟩
        · cases h
        · cases Option.some.inj hg
          rw [hge] at hemp'
          cases hemp'

/-- Witness for C4: with the default thresholds and allow_deletion, a
deleted (None) geometry passes validation. -/
theorem validate_fix_contract_witness :
    (Validator.validate_fix (1/2) 5 baseGeom none true).passed = true :=
  (validate_fix_contract (1/2) 5 baseGeom none true).2.2.1 rfl (Or.inl rfl)

/-- Claim C9: MakeValidFix.execute is a no-op on a non-null, already-valid
geometry, and is therefore idempotent there. -/
theorem make_valid_noop_on_valid (mv : Geom → Geom) (g : Geom)
    (h : g.is_valid = true) :
    MakeValidFix.execute_opt mv (some g) = some g ∧
    MakeValidFix.execute_opt mv (MakeValidFix.execute_opt mv (some g)) =
      MakeValidFix.execute_opt mv (some g) := by
  simp [MakeValidFix.execute_opt, h]

/-- Witness for C9 at a concrete valid geometry and the identity
transform. -/
theorem make_valid_noop_on_valid_witness :
    baseGeom.is_valid = true ∧
    MakeValidFix.execute_opt id (some baseGeom) = some baseGeom :=
  ⟨rfl, (make_valid_noop_on_valid id baseGeom rfl).1⟩

/-- Claim C3: apply returns a FixResult and never propagates: a raising
execute yields a failed result with nil post-fix geometry; success
implies a passing verdict; and DeleteFix yields nil post-fix geometry
with success. -/
theorem fix_apply_contract (op : FixOperation) (s : FixStrategy) :
    (op.execute s.error.geometry s.parameters = .raises →
      (op.apply s).success = false ∧ (op.apply s).fixed_geometry = none) ∧
    ((op.apply s).success = true → (op.apply s).validation_passed = true) ∧
    ((DeleteFix.apply s).fixed_geometry = none ∧
      (DeleteFix.apply s).success = true) := by
  refine ⟨?_, ?_, ?_, ?_⟩
  · intro h
    simp [FixOperation.apply, h]
  · intro h
    cases hx : op.execute s.error.geometry s.parameters with
    | raises => simp [FixOperation.apply, hx] at h
    | returns fixed =>
        simp [FixOperation.apply, hx] at h ⊢
        exact h
  · simp [FixOperation.apply, DeleteFix]
  · simp [FixOperation.apply, DeleteFix]

/-- Witness for C3: a raising operation produces a failed result, and
DeleteFix produces a nil geometry. -/
theorem fix_apply_contract_witness :
    (raisingOp.apply sampleStrategy).success = false ∧
    (DeleteFix.apply sampleStrategy).fixed_geometry = none :=
  ⟨((fix_apply_contract raisingOp sampleStrategy).1 rfl).1,
   (fix_apply_contract raisingOp sampleStrategy).2.2.1⟩

/-- Claim C10: the success flag always equals the validation verdict, and
a failed verdict forces a nil post-fix geometry. -/
theorem fix_result_no_rejected_geometry (op : FixOperation)
    (s : FixStrategy) :
    (op.apply s).success = (op.apply s).validation_passed ∧
    ((op.apply s).validation_passed = false →
      (op.apply s).fixed_geometry = none) := by
  cases hx : op.execute s.error.geometry s.parameters with
  | raises => simp [FixOperation.apply, hx]
  | returns fixed =>
      constructor
      · simp [FixOperation.apply, hx]
      · intro h
        simp [FixOperation.apply, hx] at h ⊢
        simp [h]

/-- Witness for C10: the raising operation has a failed verdict and a nil
post-fix geometry. -/
theorem fix_result_no_rejected_geometry_witness :
    (raisingOp.apply sampleStrategy).fixed_geometry = none :=
  (fix_result_no_rejected_geometry raisingOp sampleStrategy).2 rfl

/-- Claim C7 (amended): strategies and audit rows carry one of exactly
three tier values, recorded as the strings rule_based, llm_reasoning and
human_review (denoting the rule, oracle and human tiers). -/
theorem tier_value_closed (cfg : DecisionThresholds) (rules : List Rule)
    (oracle : Oracle) (e : DetectedError)
    (m : List (String × FeatureMetadata)) (ro : Bool) (sid : String)
    (result : FixResult) (fid : String) (action : FixAction) :
    (DecisionEngine.decide cfg rules oracle e m ro).tier.value ∈
      (["rule_based", "llm_reasoning", "human_review"] : List String) ∧
    (AuditLogger.log_fix_row sid result fid action).tier =
      result.strategy.tier.value ∧
    (AuditLogger.log_fix_row sid result fid action).tier ∈
      (["rule_based", "llm_reasoning", "human_review"] : List String) := by
  have hv : ∀ t : FixTier, t.value ∈
      (["rule_based", "llm_reasoning", "human_review"] : List String) := by
    intro t
    cases t <;> simp [FixTier.value]
  exact ⟨hv _, rfl, hv _⟩

/-- Counterexample for C7: the recorded tier string of a rule-tier fix is
rule_based, which is not among rule, oracle, human. -/
theorem tier_value_counterexample :
    (AuditLogger.log_fix_row "s" sampleResult "f1" .APPLIED).tier
      = "rule_based" ∧
    "rule_based" ∉ (["rule", "oracle", "human"] : List String) := by
  constructor
  · rfl
  · decide

/-- Counterexample for C5: properties carrying overlap_class = sliver (the
key named in the claim) with a 0.5 m² intersection do not fire any rule —
the code reads the key overlap_type, so the rule tier yields nothing. -/
theorem sliver_overlap_class_counterexample :
    RuleSet.evaluate build_default_ruleset sliverClassError [] = none := by
  simp +decide [RuleSet.evaluate, build_default_ruleset, liftRule,
    rule_exact_duplicate, rule_duplicate_same_source,
    rule_duplicate_diff_source, rule_invalid_geometry, rule_sliver_overlap,
    rule_partial_overlap_accuracy, rule_small_road_conflict,
    rule_tiny_building, rule_low_compactness, rule_boundary_clip,
    rule_overlap_by_class, rule_road_conflict_fallback,
    rule_outside_boundary, rule_boundary_overlap_fallback,
    sliverClassError, ltWithInfDefault, get_meta, accuracy_difference,
    show (0:ℚ) < 0.98 by norm_num]

/-- Claim C5 (amended): a building_overlap error whose properties carry
overlap_type = sliver (the key the code reads) and an intersection area
below 1 m², with overlap ratio below the 0.98 duplicate threshold, makes
the rule tier produce a trim strategy at confidence 0.90. -/
theorem sliver_overlap_rule (e : DetectedError)
    (m : List (String × FeatureMetadata)) (a : ℚ)
    (h1 : e.error_type = "building_overlap")
    (h2 : e.properties.overlap_type = some "sliver")
    (h3 : e.properties.inter_area_m2 = some a)
    (h4 : a < 1)
    (h5 : e.properties.overlap_ratio.getD 0 < 0.98) :
    ∃ st, RuleSet.evaluate build_default_ruleset e m = some st ∧
      st.fix_type = "trim" ∧ st.tier = .RULE_BASED ∧
      st.confidence = 0.90 := by
  have hev : RuleSet.evaluate build_default_ruleset e m = some
      { error := e, fix_type := "trim", tier := .RULE_BASED,
        confidence := 0.90,
        reasoning := "Sliver overlap — auto-trimming." } := by
    simp +decide [RuleSet.evaluate, build_default_ruleset, liftRule,
      rule_exact_duplicate, rule_duplicate_same_source,
      rule_duplicate_diff_source, rule_invalid_geometry,
      rule_sliver_overlap, ltWithInfDefault, h1, h2, h3, h4, h5]
  exact ⟨_, hev, rfl, rfl, rfl⟩

/-- Witness for C5 at a concrete sliver-typed overlap error. -/
theorem sliver_overlap_rule_witness :
    ∃ st, RuleSet.evaluate build_default_ruleset sliverTypeError [] = some st ∧
      st.fix_type = "trim" ∧ st.tier = .RULE_BASED ∧
      st.confidence = 0.90 :=
  sliver_overlap_rule sliverTypeError [] (1/2) rfl rfl rfl (by norm_num)
    (by norm_num [sliverTypeError, Option.getD])

/-- Helper: combined_confidence of two scores at least 0.01 is the square
root of their product. -/
theorem combined_confidence_two (a b : ℝ) (ha : 0.01 ≤ a) (hb : 0.01 ≤ b) :
    combined_confidence [a, b] = Real.sqrt (a * b) := by
  unfold combined_confidence
  simp only [List.isEmpty_cons, List.foldl, List.length_cons,
    List.length_nil, if_false, Bool.false_eq_true]
  rw [max_eq_left ha, max_eq_left hb, one_mul, Real.sqrt_eq_rpow]
  norm_num

/-- Helper: the rule tier's outcome on the S2 scenario (ratio 0.36,
accuracy gap 10): rule 60 fires with a snap of B onto A at the combined
confidence of 0.55 (ratio curve, since 0.36 is below 0.40) and 0.95 (gap
curve). -/
theorem s2_rule_eval :
    RuleSet.evaluate build_default_ruleset s2_error s2_meta = some
      { error := s2_error, fix_type := "snap", tier := .RULE_BASED,
        confidence := combined_confidence [0.55, 0.95],
        parameters := { snap_feature := some "B",
                        reference_feature := some "A" },
        reasoning := "Partial overlap with accuracy gap. Snap less accurate feature." } := by
  simp +decide [RuleSet.evaluate, build_default_ruleset, liftRule,
    rule_exact_duplicate, rule_duplicate_same_source,
    rule_duplicate_diff_source, rule_invalid_geometry, rule_sliver_overlap,
    rule_partial_overlap_accuracy, s2_error, s2_meta, get_meta,
    accuracy_difference, confidence_from_overlap_ratio,
    confidence_from_accuracy_gap, ltWithInfDefault,
    show (9:ℚ)/25 < 0.98 by norm_num,
    show ¬((0.98:ℚ) ≤ 9/25) by norm_num,
    show ¬((9:ℚ)/25 < 0.30) by norm_num,
    show ¬(|(2:ℚ) - 12| ≤ 5) by norm_num,
    show ¬((0.80:ℚ) ≤ 9/25) by norm_num,
    show ¬((0.60:ℚ) ≤ 9/25) by norm_num,
    show ¬((0.40:ℚ) ≤ 9/25) by norm_num,
    show (10:ℚ) ≤ |(2:ℚ) - 12| by norm_num]

/-- Helper: the S2 combined confidence is below 0.80. -/
theorem s2_conf_lt_080 : combined_confidence [(0.55:ℝ), 0.95] < 0.80 := by
  rw [combined_confidence_two _ _ (by norm_num) (by norm_num),
    Real.sqrt_lt' (by norm_num)]
  norm_num

/-- Claim C6 (amended): on the S2 scenario (ratio 0.36, gap 10 m) the rule
tier produces a snap of B onto A at the geometric mean of 0.55 and 0.95
(about 0.72, between 0.72 and 0.73), below the 0.80 auto-fix threshold, so
decide escalates: to the oracle when it recommends (tier llm_reasoning),
else to human review. -/
theorem s2_snap_scenario :
    ∃ st, RuleSet.evaluate build_default_ruleset s2_error s2_meta = some st ∧
      st.fix_type = "snap" ∧ st.tier = .RULE_BASED ∧
      st.parameters.snap_feature = some "B" ∧
      st.parameters.reference_feature = some "A" ∧
      st.confidence = Real.sqrt (0.55 * 0.95) ∧
      0.72 < st.confidence ∧ st.confidence < 0.73 ∧
      st.confidence < DecisionThresholds.default.auto_fix_min ∧
      (DecisionEngine.decide DecisionThresholds.default
        build_default_ruleset silent_oracle s2_error s2_meta false).tier
          = .HUMAN_REVIEW ∧
      (DecisionEngine.decide DecisionThresholds.default
        build_default_ruleset snap_oracle_065 s2_error s2_meta false).tier
          = .LLM_REASONING := by
  have hc2 : combined_confidence [(0.55:ℝ), 0.95] = Real.sqrt (0.55 * 0.95) :=
    combined_confidence_two _ _ (by norm_num) (by norm_num)
  have hlt73 : combined_confidence [(0.55:ℝ), 0.95] < 0.73 := by
    rw [hc2, Real.sqrt_lt' (by norm_num)]
    norm_num
  have hgt72 : (0.72:ℝ) < combined_confidence [(0.55:ℝ), 0.95] := by
    rw [hc2]
    exact (Real.lt_sqrt (by norm_num)).mpr (by norm_num)
  have hltmin : combined_confidence [(0.55:ℝ), 0.95]
      < DecisionThresholds.default.auto_fix_min := by
    simpa [DecisionThresholds.default] using s2_conf_lt_080
  refine ⟨_, s2_rule_eval, rfl, rfl, rfl, rfl, hc2, hgt72, hlt73, hltmin,
    ?_, ?_⟩
  · unfold DecisionEngine.decide
    simp only [s2_rule_eval]
    rw [if_neg (not_le.mpr hltmin)]
    simp [DecisionEngine.llm_attempt, silent_oracle,
      DecisionEngine.human_review_fallback]
  · unfold DecisionEngine.decide
    simp only [s2_rule_eval]
    rw [if_neg (not_le.mpr hltmin)]
    simp only [DecisionEngine.llm_attempt, snap_oracle_065,
      LLMReasoner.parse_response, Option.getD_some, Bool.false_eq_true,
      if_false]
    rw [if_pos (show DecisionThresholds.default.llm_fix_min ≤ (0.65:ℝ) by
      norm_num [DecisionThresholds.default])]

/-- Counterexample for C6: the S2 confidence is below 0.73, while the
geometric mean of 0.65 and 0.95 claimed by the specification is above
0.78 — so the produced confidence is not the claimed value. -/
theorem s2_confidence_counterexample :
    ∃ st, RuleSet.evaluate build_default_ruleset s2_error s2_meta = some st ∧
      st.confidence < 0.73 ∧
      0.78 < combined_confidence [0.65, 0.95] ∧
      st.confidence ≠ combined_confidence [0.65, 0.95] := by
  have hlt73 : combined_confidence [(0.55:ℝ), 0.95] < 0.73 := by
    rw [combined_confidence_two _ _ (by norm_num) (by norm_num),
      Real.sqrt_lt' (by norm_num)]
    norm_num
  have hgt78 : (0.78:ℝ) < combined_confidence [(0.65:ℝ), 0.95] := by
    rw [combined_confidence_two _ _ (by norm_num) (by norm_num)]
    exact (Real.lt_sqrt (by norm_num)).mpr (by norm_num)
  refine ⟨_, s2_rule_eval, hlt73, hgt78, ?_⟩
  exact ne_of_lt (lt_trans hlt73 (lt_trans (by norm_num) hgt78))

/-- Helper: a lifted rule reports matched exactly when the underlying
function returned a strategy. -/
theorem liftRule_matched
    (f : DetectedError → List (String × FeatureMetadata) → Option FixStrategy)
    (e : DetectedError) (m : List (String × FeatureMetadata))
    (st : FixStrategy) (h : liftRule f e m = .matched st) :
    f e m = some st := by
  unfold liftRule at h
  split at h
  · simp at h
  · rename_i s heq
    injection h with h
    subst h
    exact heq

/-- Helper: every strategy produced by any built-in rule carries a fix
kind from the closed set. -/
theorem default_ruleset_kinds (e : DetectedError)
    (m : List (String × FeatureMetadata)) (st : FixStrategy) :
    ∀ r ∈ build_default_ruleset, r.func e m = .matched st →
      st.fix_type ∈ closed_fix_kinds := by
  intro r hr h
  simp only [build_default_ruleset, List.mem_cons, List.not_mem_nil,
    or_false] at hr
  rcases hr with rfl | rfl | rfl | rfl | rfl | rfl | rfl | rfl | rfl | rfl | rfl | rfl | rfl | rfl
  all_goals replace h := liftRule_matched _ _ _ _ h
  all_goals
    simp only [rule_exact_duplicate, rule_duplicate_same_source,
      rule_duplicate_diff_source, rule_invalid_geometry, rule_sliver_overlap,
      rule_partial_overlap_accuracy, rule_small_road_conflict,
      rule_tiny_building, rule_low_compactness, rule_boundary_clip,
      rule_overlap_by_class, rule_road_conflict_fallback,
      rule_outside_boundary, rule_boundary_overlap_fallback] at h
  iterate 8 (all_goals try split at h)
  all_goals try injection h with h
  all_goals first
    | (subst h; simp [closed_fix_kinds])
    | exact absurd h (by simp)

/-- Helper: a strategy returned by RuleSet.evaluate was produced by one
of the rules in the list. -/
theorem evaluate_mem_of_rules (rules : List Rule) (P : FixStrategy → Prop)
    (hr : ∀ r ∈ rules, ∀ e m st, r.func e m = .matched st → P st) :
    ∀ e m st, RuleSet.evaluate rules e m = some st → P st := by
  induction rules with
  | nil =>
      intro e m st h
      simp [RuleSet.evaluate] at h
  | cons r rest ih =>
      intro e m st h
      rw [RuleSet.evaluate] at h
      cases hx : r.func e m with
      | raises =>
          rw [hx] at h
          exact ih (fun r' hr' => hr r' (List.mem_cons_of_mem _ hr')) e m st h
      | noMatch =>
          rw [hx] at h
          exact ih (fun r' hr' => hr r' (List.mem_cons_of_mem _ hr')) e m st h
      | matched s =>
          rw [hx] at h
          injection h with h
          subst h
          exact hr r (List.mem_cons_self _ _) e m s hx

/-- Helper: no built-in rule handles a road_setback error. -/
theorem roadSetback_no_rule :
    RuleSet.evaluate build_default_ruleset roadSetbackError [] = none := by
  simp +decide [RuleSet.evaluate, build_default_ruleset, liftRule,
    rule_exact_duplicate, rule_duplicate_same_source,
    rule_duplicate_diff_source, rule_invalid_geometry,
    rule_sliver_overlap, rule_partial_overlap_accuracy,
    rule_small_road_conflict, rule_tiny_building, rule_low_compactness,
    rule_boundary_clip, rule_overlap_by_class,
    rule_road_conflict_fallback, rule_outside_boundary,
    rule_boundary_overlap_fallback, roadSetbackError, ltWithInfDefault,
    get_meta, show (0:ℚ) < 0.98 by norm_num]

/-- Claim C1 (amended): every rule-tier strategy and every strategy the
engine emits when the oracle yields nothing (raises or no recommendation)
has a fix kind in the closed set; an oracle recommendation, however, is
emitted with its fix kind taken from the response unvalidated. -/
theorem decide_fix_kind_closure (cfg : DecisionThresholds) (oracle : Oracle)
    (e : DetectedError) (m : List (String × FeatureMetadata)) (ro : Bool)
    (hor : ∀ ctx, oracle e m ctx = .raises ∨ oracle e m ctx = .ok none) :
    (∀ st, RuleSet.evaluate build_default_ruleset e m = some st →
      st.fix_type ∈ closed_fix_kinds) ∧
    (DecisionEngine.decide cfg build_default_ruleset oracle e m ro).fix_type
      ∈ closed_fix_kinds := by
  have hev : ∀ st, RuleSet.evaluate build_default_ruleset e m = some st →
      st.fix_type ∈ closed_fix_kinds :=
    fun st h =>
      evaluate_mem_of_rules build_default_ruleset
        (fun s => s.fix_type ∈ closed_fix_kinds)
        (fun r hr e' m' st' h' => default_ruleset_kinds e' m' st' r hr h')
        e m st h
  refine ⟨hev, ?_⟩
  have hllm : ∀ ra, DecisionEngine.llm_attempt oracle e m ra ro = none := by
    intro ra
    unfold DecisionEngine.llm_attempt
    cases ro
    · simp only [Bool.false_eq_true, if_false]
      rcases hor ra with h | h <;> rw [h]
    · simp
  unfold DecisionEngine.decide
  cases hx : RuleSet.evaluate build_default_ruleset e m with
  | none =>
      simp only [hx, hllm]
      simp [DecisionEngine.human_review_fallback, closed_fix_kinds]
  | some st =>
      simp only [hx, hllm]
      by_cases hc : cfg.auto_fix_min ≤ st.confidence
      · rw [if_pos hc]
        exact hev st hx
      · rw [if_neg hc]
        simp [DecisionEngine.human_review_fallback, closed_fix_kinds]

/-- Witness for C1 with a silent oracle on a road_setback error. -/
theorem decide_fix_kind_closure_witness :
    (DecisionEngine.decide DecisionThresholds.default build_default_ruleset
      silent_oracle roadSetbackError [] false).fix_type
        ∈ closed_fix_kinds :=
  (decide_fix_kind_closure DecisionThresholds.default silent_oracle
    roadSetbackError [] false (fun _ => Or.inr rfl)).2

/-- Counterexample for C1: an oracle recommending the out-of-set fix kind
teleport at confidence 0.9 is emitted as the decision — the parser accepts
any fix kind string, so the closed-set property fails at the oracle tier. -/
theorem oracle_fix_kind_counterexample :
    (DecisionEngine.decide DecisionThresholds.default build_default_ruleset
      teleport_oracle roadSetbackError [] false).fix_type = "teleport" ∧
    "teleport" ∉ closed_fix_kinds := by
  constructor
  · unfold DecisionEngine.decide
    simp only [roadSetback_no_rule]
    simp only [DecisionEngine.llm_attempt, teleport_oracle,
      LLMReasoner.parse_response, Option.getD_some, Bool.false_eq_true,
      if_false]
    rw [if_pos (show DecisionThresholds.default.llm_fix_min ≤ (0.9:ℝ) by
      norm_num [DecisionThresholds.default])]
  · decide

/-- Helper: the Tier-3 fallback always carries fix kind human_review and
the human tier, whatever the best attempt was. -/
theorem fallback_shape (e : DetectedError) (b : Option FixStrategy) :
    (DecisionEngine.human_review_fallback e b).fix_type = "human_review" ∧
    (DecisionEngine.human_review_fallback e b).tier = .HUMAN_REVIEW := by
  cases b <;> simp [DecisionEngine.human_review_fallback]

/-- Claim C2 (amended): decide is total; a raising rule is skipped with
later rules still tried; a raising oracle yields no Tier-2 attempt; and
when the rule attempt is below auto_fix_min and the oracle attempt (if
any) below llm_fix_min, the result is a human_review / human-tier
strategy whose confidence and rationale come from the oracle attempt when
one was returned, else from the rule attempt (0 and a no-recommendation
message when neither), with the insufficient-confidence suffix. -/
theorem decide_contract (cfg : DecisionThresholds) (oracle : Oracle)
    (e : DetectedError) (m : List (String × FeatureMetadata)) (ro : Bool)
    (r : Rule) (rest : List Rule)
    (h1 : ∀ st, RuleSet.evaluate build_default_ruleset e m = some st →
      st.confidence < cfg.auto_fix_min)
    (h2 : ∀ ls, DecisionEngine.llm_attempt oracle e m
      (RuleSet.evaluate build_default_ruleset e m) ro = some ls →
      ls.confidence < cfg.llm_fix_min) :
    (r.func e m = .raises →
      RuleSet.evaluate (r :: rest) e m = RuleSet.evaluate rest e m) ∧
    ((∀ ctx, oracle e m ctx = .raises) →
      DecisionEngine.llm_attempt oracle e m
        (RuleSet.evaluate build_default_ruleset e m) ro = none) ∧
    (DecisionEngine.decide cfg build_default_ruleset oracle e m ro).fix_type
      = "human_review" ∧
    (DecisionEngine.decide cfg build_default_ruleset oracle e m ro).tier
      = .HUMAN_REVIEW ∧
    (∀ ls, DecisionEngine.llm_attempt oracle e m
        (RuleSet.evaluate build_default_ruleset e m) ro = some ls →
      (DecisionEngine.decide cfg build_default_ruleset oracle e m ro).confidence
          = ls.confidence ∧
      (DecisionEngine.decide cfg build_default_ruleset oracle e m ro).reasoning
          = ls.reasoning ++ " — confidence too low for auto-fix.") ∧
    (DecisionEngine.llm_attempt oracle e m
        (RuleSet.evaluate build_default_ruleset e m) ro = none →
      ∀ st, RuleSet.evaluate build_default_ruleset e m = some st →
      (DecisionEngine.decide cfg build_default_ruleset oracle e m ro).confidence
          = st.confidence ∧
      (DecisionEngine.decide cfg build_default_ruleset oracle e m ro).reasoning
          = st.reasoning ++ " — confidence too low for auto-fix.") ∧
    (DecisionEngine.llm_attempt oracle e m
        (RuleSet.evaluate build_default_ruleset e m) ro = none →
      RuleSet.evaluate build_default_ruleset e m = none →
      (DecisionEngine.decide cfg build_default_ruleset oracle e m ro).confidence
          = 0 ∧
      (DecisionEngine.decide cfg build_default_ruleset oracle e m ro).reasoning
          = "No rule or LLM recommendation available.") := by
  have hdec : DecisionEngine.decide cfg build_default_ruleset oracle e m ro =
      DecisionEngine.human_review_fallback e
        (match DecisionEngine.llm_attempt oracle e m
            (RuleSet.evaluate build_default_ruleset e m) ro with
         | some ls => some ls
         | none => RuleSet.evaluate build_default_ruleset e m) := by
    unfold DecisionEngine.decide
    cases hx : RuleSet.evaluate build_default_ruleset e m with
    | none =>
        cases hl : DecisionEngine.llm_attempt oracle e m none ro with
        | none => simp only [hx, hl]
        | some ls =>
            simp only [hx, hl]
            rw [if_neg (not_le.mpr (h2 ls (by rw [hx]; exact hl)))]
    | some st =>
        simp only [hx]
        rw [if_neg (not_le.mpr (h1 st hx))]
        cases hl : DecisionEngine.llm_attempt oracle e m (some st) ro with
        | none => simp only [hl]
        | some ls =>
            simp only [hl]
            rw [if_neg (not_le.mpr (h2 ls (by rw [hx]; exact hl)))]
  refine ⟨?_, ?_, ?_, ?_, ?_, ?_, ?_⟩
  · intro h
    rw [RuleSet.evaluate, h]
  · intro hr
    unfold DecisionEngine.llm_attempt
    cases ro
    · simp only [Bool.false_eq_true, if_false]
      rw [hr _]
    · simp
  · rw [hdec]
    exact (fallback_shape e _).1
  · rw [hdec]
    exact (fallback_shape e _).2
  · intro ls hl
    rw [hdec, hl]
    exact ⟨rfl, rfl⟩
  · intro hl st hx
    rw [hdec, hl, hx]
    exact ⟨rfl, rfl⟩
  · intro hl hx
    rw [hdec, hl, hx]
    exact ⟨rfl, rfl⟩

/-- Witness for C2: with no matching rule and a silent oracle, decide
falls through to human review. -/
theorem decide_contract_witness :
    (DecisionEngine.decide DecisionThresholds.default build_default_ruleset
      silent_oracle roadSetbackError [] false).fix_type = "human_review" :=
  (decide_contract DecisionThresholds.default silent_oracle
    roadSetbackError [] false
    { name := "raising", priority := 5, func := fun _ _ => .raises } []
    (fun st h => Option.noConfusion (roadSetback_no_rule.symm.trans h))
    (fun ls h => Option.noConfusion
      ((show DecisionEngine.llm_attempt silent_oracle roadSetbackError []
          (RuleSet.evaluate build_default_ruleset roadSetbackError []) false
            = none by
        unfold DecisionEngine.llm_attempt silent_oracle
        simp).symm.trans h))).2.2.1

/-- Helper: the rule tier decides delete at confidence 0.70 on the tiny
0.5 m² building error. -/
theorem tiny_rule_eval :
    RuleSet.evaluate build_default_ruleset tinyError [] = some
      { error := tinyError, fix_type := "delete", tier := .RULE_BASED,
        confidence := 0.70,
        reasoning := "Unreasonably small building — flagged for deletion." } := by
  simp +decide [RuleSet.evaluate, build_default_ruleset, liftRule,
    rule_exact_duplicate, rule_duplicate_same_source,
    rule_duplicate_diff_source, rule_invalid_geometry, rule_sliver_overlap,
    rule_partial_overlap_accuracy, rule_small_road_conflict,
    rule_tiny_building, tinyError, ltWithInfDefault, get_meta,
    show (0:ℚ) < 0.98 by norm_num, show (1:ℚ)/2 < 1 by norm_num,
    show ¬((1:ℚ) ≤ 2⁻¹) by norm_num]

/-- Counterexample for C2: the rule attempt has confidence 0.70, the
oracle attempt 0.30 — both below their thresholds — and the returned
human-review strategy carries 0.30, the oracle attempt's confidence,
although the best (highest-confidence) attempt was the rule's 0.70. -/
theorem decide_best_confidence_counterexample :
    ((RuleSet.evaluate build_default_ruleset tinyError []).map
      (fun st => st.confidence)) = some 0.70 ∧
    (DecisionEngine.decide DecisionThresholds.default build_default_ruleset
      merge_oracle_030 tinyError [] false).confidence = 0.30 ∧
    (0.30 : ℝ) < 0.70 := by
  refine ⟨?_, ?_, by norm_num⟩
  · rw [tiny_rule_eval]
    rfl
  · unfold DecisionEngine.decide
    simp only [tiny_rule_eval]
    rw [if_neg (show ¬(DecisionThresholds.default.auto_fix_min ≤ (0.70:ℝ))
      by norm_num [DecisionThresholds.default])]
    simp only [DecisionEngine.llm_attempt, merge_oracle_030,
      LLMReasoner.parse_response, Option.getD_some, Bool.false_eq_true,
      if_false]
    rw [if_neg (show ¬(DecisionThresholds.default.llm_fix_min ≤ (0.3:ℝ))
      by norm_num [DecisionThresholds.default])]
    norm_num [DecisionEngine.human_review_fallback]

/-- Helper: with a nonempty session id, query filters exactly the rows of
that session (most recent first, truncated to the limit). -/
theorem query_session_filter (db : List AuditRow) (sid : String)
    (hsid : sid ≠ "") (limit : Nat) :
    AuditDatabase.query db none (some sid) none limit =
      ((db.filter (fun r => r.session_id == sid)).reverse).take limit := by
  unfold AuditDatabase.query
  congr 2
  apply List.filter_congr
  intro r _
  simp only [pyStrFilter, hsid, Bool.true_and, Bool.and_true, if_false]
  rfl

/-- Helper: counting each of the four action strings partitions a list of
rows whose actions all lie among those four. -/
theorem countP_four_partition (l : List AuditRow)
    (h : ∀ r ∈ l, r.action = "applied" ∨ r.action = "rolled_back" ∨
      r.action = "skipped" ∨ r.action = "pending_review") :
    l.countP (fun r => r.action == "applied") +
    l.countP (fun r => r.action == "rolled_back") +
    l.countP (fun r => r.action == "skipped") +
    l.countP (fun r => r.action == "pending_review") = l.length := by
  induction l with
  | nil => simp
  | cons r rest ih =>
      have hr := h r (List.mem_cons_self _ _)
      have hrest := ih (fun x hx => h x (List.mem_cons_of_mem _ hx))
      simp only [List.countP_cons, List.length_cons]
      rcases hr with h1 | h1 | h1 | h1 <;> simp [h1] <;> omega

/-- Claim C8 (amended): for a session with at most 10000 entries (the
query limit used by the summary), the summary total equals the number of
rows carrying that session id, the four counts tally those rows by action
string and partition them, and every row written by log_fix carries one
of the four action strings. -/
theorem session_summary_contract (sid : String) (db : List AuditRow)
    (hsid : sid ≠ "")
    (hle : (db.filter (fun r => r.session_id == sid)).length ≤ 10000)
    (hact : ∀ r ∈ db, r.action = "applied" ∨ r.action = "rolled_back" ∨
      r.action = "skipped" ∨ r.action = "pending_review") :
    (AuditLogger.get_session_summary sid db).total_actions
        = (db.filter (fun r => r.session_id == sid)).length ∧
    (AuditLogger.get_session_summary sid db).applied
        = (db.filter (fun r => r.session_id == sid)).countP
            (fun r => r.action == "applied") ∧
    (AuditLogger.get_session_summary sid db).rolled_back
        = (db.filter (fun r => r.session_id == sid)).countP
            (fun r => r.action == "rolled_back") ∧
    (AuditLogger.get_session_summary sid db).skipped
        = (db.filter (fun r => r.session_id == sid)).countP
            (fun r => r.action == "skipped") ∧
    (AuditLogger.get_session_summary sid db).pending_review
        = (db.filter (fun r => r.session_id == sid)).countP
            (fun r => r.action == "pending_review") ∧
    (AuditLogger.get_session_summary sid db).applied +
      (AuditLogger.get_session_summary sid db).rolled_back +
      (AuditLogger.get_session_summary sid db).skipped +
      (AuditLogger.get_session_summary sid db).pending_review
        = (AuditLogger.get_session_summary sid db).total_actions ∧
    (∀ (sid2 : String) (result : FixResult) (fid : String)
        (action : FixAction),
      (AuditLogger.log_fix_row sid2 result fid action).action = "applied" ∨
      (AuditLogger.log_fix_row sid2 result fid action).action = "rolled_back" ∨
      (AuditLogger.log_fix_row sid2 result fid action).action = "skipped" ∨
      (AuditLogger.log_fix_row sid2 result fid action).action
        = "pending_review") := by
  have hrows : AuditDatabase.query db none (some sid) none 10000 =
      (db.filter (fun r => r.session_id == sid)).reverse :=
    (query_session_filter db sid hsid 10000).trans
      (List.take_of_length_le (by simpa using hle))
  refine ⟨?_, ?_, ?_, ?_, ?_, ?_, ?_⟩
  · simp only [AuditLogger.get_session_summary, hrows, List.length_reverse]
  · simp only [AuditLogger.get_session_summary, hrows, List.countP_reverse]
  · simp only [AuditLogger.get_session_summary, hrows, List.countP_reverse]
  · simp only [AuditLogger.get_session_summary, hrows, List.countP_reverse]
  · simp only [AuditLogger.get_session_summary, hrows, List.countP_reverse]
  · simp only [AuditLogger.get_session_summary, hrows, List.countP_reverse,
      List.length_reverse]
    exact countP_four_partition _
      (fun r hr => hact r (List.mem_of_mem_filter hr))
  · intro sid2 result fid action
    cases action <;> simp [AuditLogger.log_fix_row, FixAction.value]

/-- Witness for C8 on a three-row database (two rows in session s, one in
another session). -/
theorem session_summary_contract_witness :
    (AuditLogger.get_session_summary "s"
      [sampleAppliedRow, sampleRolledBackRow, otherSessionRow]).total_actions
      = ([sampleAppliedRow, sampleRolledBackRow,
          otherSessionRow].filter (fun r => r.session_id == "s")).length :=
  (session_summary_contract "s"
    [sampleAppliedRow, sampleRolledBackRow, otherSessionRow]
    (by decide) (by decide) (by decide)).1

/-- Counterexample for C8: with 10001 entries in one session the summary
totals only 10000 — the query limit truncates the aggregation. -/
theorem session_summary_truncation_counterexample :
    (AuditLogger.get_session_summary "s"
      (List.replicate 10001 sampleAppliedRow)).total_actions = 10000 ∧
    ((List.replicate 10001 sampleAppliedRow).filter
      (fun r => r.session_id == "s")).length = 10001 := by
  have hfil : (List.replicate 10001 sampleAppliedRow).filter
      (fun r => r.session_id == "s") =
      List.replicate 10001 sampleAppliedRow := by
    apply List.filter_eq_self.mpr
    intro a ha
    rw [List.eq_of_mem_replicate ha]
    rfl
  have hq := query_session_filter (List.replicate 10001 sampleAppliedRow)
    "s" (by decide) 10000
  constructor
  · simp only [AuditLogger.get_session_summary, hq, hfil,
      List.reverse_replicate, List.take_replicate, List.length_replicate]
    omega
  · rw [hfil, List.length_replicate]
